import Mathlib

/-!
# Agent R.O.B.E.R.T. CoreS3 firmware entry point

A shallow embedding of `src/clients/agent-core-s3/src/main.cpp`: the two
functions `setup` and `loop`, written against the vendor hardware library
`M5Unified`.  The vendor library is external to the repository; it enters the
development as a parameter (`Vendor`): every vendor call is an arbitrary
transformer of an arbitrary hardware state, and the calls a function issues
are recorded, in order, in a call log.
-/

namespace AgentCoreS3

/-! ## Vendor types named by the program -/

/-- Colour constants of the vendor graphics header.  The program names
`TFT_WHITE` and `TFT_BLACK`; `other` stands for every colour it does not name. -/
inductive Color where
  | TFT_BLACK
  | TFT_WHITE
  | other (code : Nat)
  deriving DecidableEq

/-- Log sinks of the vendor logger (`m5::log_target_t`); the program names
`m5::log_target_serial`. -/
inductive LogTarget where
  | log_target_serial
  | log_target_display
  | log_target_callback
  deriving DecidableEq

/-- Severity levels of the vendor logger (`esp_log_level_t`); the program names
`ESP_LOG_INFO`. -/
inductive LogLevel where
  | ESP_LOG_NONE
  | ESP_LOG_ERROR
  | ESP_LOG_WARN
  | ESP_LOG_INFO
  | ESP_LOG_DEBUG
  | ESP_LOG_VERBOSE
  deriving DecidableEq

/-- The part of the vendor touch record the program reads: the coordinates
`touch.x`, `touch.y` and the result of `touch.wasPressed()`. -/
structure TouchDetail where
  x : Int
  y : Int
  wasPressed : Bool
  deriving DecidableEq

/-- One vendor call, with the arguments the program passes.  `Cfg` is the type
of the hardware configuration value returned by `M5.config()`. -/
inductive Call (Cfg : Type) where
  | config
  | begin (cfg : Cfg)
  | setLogLevel (target : LogTarget) (level : LogLevel)
  | M5_LOGI (format : String) (args : List Int)
  | setTextSize (size : Nat)
  | setTextColor (fg bg : Color)
  | fillScreen (color : Color)
  | setCursor (x y : Int)
  | println (text : String)
  | update
  | getCount
  | getDetail (index : Nat)
  | delay (ms : Nat)
  deriving DecidableEq

/-- The vendor library as seen by the program: what each call returns and what
it does to the hardware state `σ`.  Nothing is assumed about any of them. -/
structure Vendor (σ Cfg : Type) where
  config : σ → Cfg × σ
  begin : Cfg → σ → σ
  setLogLevel : LogTarget → LogLevel → σ → σ
  log : LogLevel → String → List Int → σ → σ
  setTextSize : Nat → σ → σ
  setTextColor : Color → Color → σ → σ
  fillScreen : Color → σ → σ
  setCursor : Int → Int → σ → σ
  println : String → σ → σ
  update : σ → σ
  getCount : σ → Nat × σ
  getDetail : Nat → σ → TouchDetail × σ
  delay : Nat → σ → σ

/-- The hardware state together with the log of the vendor calls issued so far,
oldest first. -/
structure World (σ Cfg : Type) where
  hw : σ
  calls : List (Call Cfg)

/-- The type of a program fragment: a state transformer on `World`. -/
abbrev Prog (σ Cfg α : Type) := World σ Cfg → α × World σ Cfg

variable {σ Cfg : Type}

/-- Sequencing of program fragments. -/
@[reducible] def Prog.bind {α β : Type} (p : Prog σ Cfg α) (f : α → Prog σ Cfg β) :
    Prog σ Cfg β :=
  fun w => f (p w).1 (p w).2

instance : Monad (Prog σ Cfg) where
  pure a := fun w => (a, w)
  bind := Prog.bind

/-- A vendor call returning nothing: apply it to the hardware and log it. -/
def issue (c : Call Cfg) (f : σ → σ) : Prog σ Cfg Unit :=
  fun w => ((), ⟨f w.hw, w.calls ++ [c]⟩)

/-- A vendor call returning a value: apply it to the hardware, log it, and
hand the value back. -/
def query {α : Type} (c : Call Cfg) (f : σ → α × σ) : Prog σ Cfg α :=
  fun w => ((f w.hw).1, ⟨(f w.hw).2, w.calls ++ [c]⟩)

/-! ## The vendor entry points used by `main.cpp` -/

def M5.config (v : Vendor σ Cfg) : Prog σ Cfg Cfg :=
  query Call.config v.config

def M5.begin (v : Vendor σ Cfg) (cfg : Cfg) : Prog σ Cfg Unit :=
  issue (Call.begin cfg) (v.begin cfg)

def M5.Log.setLogLevel (v : Vendor σ Cfg) (target : LogTarget) (level : LogLevel) :
    Prog σ Cfg Unit :=
  issue (Call.setLogLevel target level) (v.setLogLevel target level)

/-- The vendor macro `M5_LOGI(format, ...)`: a call of the vendor logger at
level `ESP_LOG_INFO` with the format string and its arguments. -/
def M5_LOGI (v : Vendor σ Cfg) (format : String) (args : List Int) : Prog σ Cfg Unit :=
  issue (Call.M5_LOGI format args) (v.log LogLevel.ESP_LOG_INFO format args)

def M5.Display.setTextSize (v : Vendor σ Cfg) (size : Nat) : Prog σ Cfg Unit :=
  issue (Call.setTextSize size) (v.setTextSize size)

def M5.Display.setTextColor (v : Vendor σ Cfg) (fg bg : Color) : Prog σ Cfg Unit :=
  issue (Call.setTextColor fg bg) (v.setTextColor fg bg)

def M5.Display.fillScreen (v : Vendor σ Cfg) (color : Color) : Prog σ Cfg Unit :=
  issue (Call.fillScreen color) (v.fillScreen color)

def M5.Display.setCursor (v : Vendor σ Cfg) (x y : Int) : Prog σ Cfg Unit :=
  issue (Call.setCursor x y) (v.setCursor x y)

def M5.Display.println (v : Vendor σ Cfg) (text : String) : Prog σ Cfg Unit :=
  issue (Call.println text) (v.println text)

def M5.update (v : Vendor σ Cfg) : Prog σ Cfg Unit :=
  issue Call.update v.update

def M5.Touch.getCount (v : Vendor σ Cfg) : Prog σ Cfg Nat :=
  query Call.getCount v.getCount

def M5.Touch.getDetail (v : Vendor σ Cfg) (index : Nat) : Prog σ Cfg TouchDetail :=
  query (Call.getDetail index) (v.getDetail index)

def delay (v : Vendor σ Cfg) (ms : Nat) : Prog σ Cfg Unit :=
  issue (Call.delay ms) (v.delay ms)

/-! ## The program -/

/-- `void setup()` of `main.cpp`. -/
def setup (v : Vendor σ Cfg) : Prog σ Cfg Unit := do
  -- 1. Initialize hardware (display, power, touch, audio)
  let cfg ← M5.config v
  M5.begin v cfg
  -- 2. Set up logging via USB-CDC
  M5.Log.setLogLevel v LogTarget.log_target_serial LogLevel.ESP_LOG_INFO
  M5_LOGI v "Agent R.O.B.E.R.T. CoreS3 — System Initialized" []
  -- 3. Display greeting
  M5.Display.setTextSize v 2
  M5.Display.setTextColor v Color.TFT_WHITE Color.TFT_BLACK
  M5.Display.fillScreen v Color.TFT_BLACK
  M5.Display.setCursor v 20 40
  M5.Display.println v "Agent R.O.B.E.R.T."
  M5.Display.setCursor v 20 80
  M5.Display.setTextSize v 1
  M5.Display.println v "CoreS3 Edge Device"
  M5.Display.setCursor v 20 120
  M5.Display.println v "Status: Online"
  M5_LOGI v "Display ready" []

/-- `void loop()` of `main.cpp`: one poll iteration. -/
def loop (v : Vendor σ Cfg) : Prog σ Cfg Unit := do
  M5.update v
  -- Touch detection example
  if (← M5.Touch.getCount v) > 0 then
    let touch ← M5.Touch.getDetail v 0
    if touch.wasPressed then
      M5_LOGI v "Touch at (%d, %d)" [touch.x, touch.y]
  delay v 10

/-- Modelled from the spec: the runtime that calls `setup` once and then `loop`
repeatedly without bound (the Arduino core, which is not part of the
repository).  `loopN v n` is the first `n` poll iterations. -/
def loopN (v : Vendor σ Cfg) : Nat → Prog σ Cfg Unit
  | 0 => pure ()
  | n + 1 => do
    loop v
    loopN v n

/-- Modelled from the spec: one-time init followed by the first `n` iterations
of the unbounded poll (the Arduino core's call order, not part of the
repository). -/
def firmware (v : Vendor σ Cfg) (n : Nat) : Prog σ Cfg Unit := do
  setup v
  loopN v n

/-! ## Observing a run -/

/-- The vendor calls a fragment issues, in order, when started on hardware
state `s`. -/
def callsOf {α : Type} (p : Prog σ Cfg α) (s : σ) : List (Call Cfg) :=
  (p ⟨s, []⟩).2.calls

/-- The hardware state a fragment leaves behind when started on `s`. -/
def hwAfter {α : Type} (p : Prog σ Cfg α) (s : σ) : σ :=
  (p ⟨s, []⟩).2.hw

/-- The hardware state at the start of poll iteration `k` (counting from 0) of
a run of `loop` started on `s`. -/
def hwAt (v : Vendor σ Cfg) : Nat → σ → σ
  | 0, s => s
  | k + 1, s => hwAt v k (hwAfter (loop v) s)

/-- The event count `M5.Touch.getCount()` returns in the iteration started on
`s`, that is, after the refresh done by `M5.update()`. -/
def seenCount (v : Vendor σ Cfg) (s : σ) : Nat :=
  (v.getCount (v.update s)).1

/-- The record `M5.Touch.getDetail(0)` returns in the iteration started on `s`
when asked right after `M5.Touch.getCount()`. -/
def seenDetail (v : Vendor σ Cfg) (s : σ) : TouchDetail :=
  (v.getDetail 0 (v.getCount (v.update s)).2).1

/-- The iteration started on `s` is shown a new press of touch point 0. -/
def reportsPress (v : Vendor σ Cfg) (s : σ) : Prop :=
  0 < seenCount v s ∧ (seenDetail v s).wasPressed = true

/-- The iteration started on `s` is shown touch point 0 still held: counted,
transition flag clear. -/
def reportsHeld (v : Vendor σ Cfg) (s : σ) : Prop :=
  0 < seenCount v s ∧ (seenDetail v s).wasPressed = false

/-- The iteration started on `s` is shown the release of touch point 0: the
point is no longer counted, or is still listed without the transition flag. -/
def reportsReleased (v : Vendor σ Cfg) (s : σ) : Prop :=
  seenCount v s = 0 ∨ (seenDetail v s).wasPressed = false

instance (v : Vendor σ Cfg) (s : σ) : Decidable (reportsPress v s) := by
  unfold reportsPress; infer_instance

instance (v : Vendor σ Cfg) (s : σ) : Decidable (reportsHeld v s) := by
  unfold reportsHeld; infer_instance

instance (v : Vendor σ Cfg) (s : σ) : Decidable (reportsReleased v s) := by
  unfold reportsReleased; infer_instance

/-- Display calls: the `M5.Display` entry points the program uses. -/
def Call.isDisplay : Call Cfg → Bool
  | Call.setTextSize _ => true
  | Call.setTextColor _ _ => true
  | Call.fillScreen _ => true
  | Call.setCursor _ _ => true
  | Call.println _ => true
  | _ => false

/-- Logging calls: `M5.Log.setLogLevel` and `M5_LOGI`. -/
def Call.isLogging : Call Cfg → Bool
  | Call.setLogLevel _ _ => true
  | Call.M5_LOGI _ _ => true
  | _ => false

/-- Touch queries: `M5.Touch.getCount` and `M5.Touch.getDetail`. -/
def Call.isTouchQuery : Call Cfg → Bool
  | Call.getCount => true
  | Call.getDetail _ => true
  | _ => false

def Call.isBegin : Call Cfg → Bool
  | Call.begin _ => true
  | _ => false

def Call.isUpdate : Call Cfg → Bool
  | Call.update => true
  | _ => false

def Call.isDelay : Call Cfg → Bool
  | Call.delay _ => true
  | _ => false

def Call.isFillScreen : Call Cfg → Bool
  | Call.fillScreen _ => true
  | _ => false

def Call.isPrintln : Call Cfg → Bool
  | Call.println _ => true
  | _ => false

/-- A log line: the format string and the arguments of one `M5_LOGI`. -/
abbrev LogLine := String × List Int

/-- The log lines among a sequence of vendor calls, in order. -/
def logLines : List (Call Cfg) → List LogLine
  | [] => []
  | Call.M5_LOGI format args :: cs => (format, args) :: logLines cs
  | _ :: cs => logLines cs

/-- The log lines of each of `n` consecutive poll iterations started on `s`,
one entry per iteration. -/
def iterationLogs (v : Vendor σ Cfg) : Nat → σ → List (List LogLine)
  | 0, _ => []
  | n + 1, s => logLines (callsOf (loop v) s) :: iterationLogs v n (hwAfter (loop v) s)

/-- The calls of one poll iteration whose touch queries return the count `n`
and the record `touch`. -/
def loopCalls (n : Nat) (touch : TouchDetail) : List (Call Cfg) :=
  [Call.update, Call.getCount] ++
    (if 0 < n then
      Call.getDetail 0 :: (if touch.wasPressed then
        [Call.M5_LOGI "Touch at (%d, %d)" [touch.x, touch.y]] else [])
     else []) ++ [Call.delay 10]

/-- The calls of `setup` when `M5.config()` returns `cfg`. -/
def setupCalls (cfg : Cfg) : List (Call Cfg) :=
  [Call.config, Call.begin cfg,
   Call.setLogLevel LogTarget.log_target_serial LogLevel.ESP_LOG_INFO,
   Call.M5_LOGI "Agent R.O.B.E.R.T. CoreS3 — System Initialized" [],
   Call.setTextSize 2,
   Call.setTextColor Color.TFT_WHITE Color.TFT_BLACK,
   Call.fillScreen Color.TFT_BLACK,
   Call.setCursor 20 40,
   Call.println "Agent R.O.B.E.R.T.",
   Call.setCursor 20 80,
   Call.setTextSize 1,
   Call.println "CoreS3 Edge Device",
   Call.setCursor 20 120,
   Call.println "Status: Online",
   Call.M5_LOGI "Display ready" []]

/-- The line `loop` logs for a press at the coordinates of `touch`. -/
def touchLine (touch : TouchDetail) : LogLine :=
  ("Touch at (%d, %d)", [touch.x, touch.y])

/-! ## A display simulator -/

/-- A piece of text on the simulated display: where it was printed, with which
text size and colours. -/
structure TextItem where
  x : Int
  y : Int
  size : Nat
  fg : Color
  bg : Color
  text : String
  deriving DecidableEq

/-- Modelled from the spec: the vendor display surface ("text size, color,
screen clear, cursor position, and line-printing operations"), which belongs to
the vendor library and not to the repository.  The contents are the texts
printed since the last screen clear; `fontHeight` is the line height of the
vendor font at text size 1. -/
structure Display where
  textSize : Nat
  fg : Color
  bg : Color
  cursorX : Int
  cursorY : Int
  fontHeight : Nat
  fill : Color
  items : List TextItem
  deriving DecidableEq

/-- Modelled from the spec: the effect of one vendor call on the display
surface.  A screen clear drops every text; `println` puts the text at the
cursor with the current size and colours and moves the cursor to the start of
the next line; calls outside `M5.Display` leave the surface as it is. -/
def Display.apply (d : Display) : Call Cfg → Display
  | Call.setTextSize size => { d with textSize := size }
  | Call.setTextColor fg bg => { d with fg := fg, bg := bg }
  | Call.fillScreen color => { d with fill := color, items := [] }
  | Call.setCursor x y => { d with cursorX := x, cursorY := y }
  | Call.println text =>
    { d with
      items := d.items ++ [⟨d.cursorX, d.cursorY, d.textSize, d.fg, d.bg, text⟩]
      cursorX := 0
      cursorY := d.cursorY + d.fontHeight * d.textSize }
  | _ => d

/-- The display after a sequence of vendor calls. -/
def Display.run (d : Display) (cs : List (Call Cfg)) : Display :=
  cs.foldl Display.apply d

/-- The three lines of the greeting as `setup` prints them. -/
def greeting : List TextItem :=
  [⟨20, 40, 2, Color.TFT_WHITE, Color.TFT_BLACK, "Agent R.O.B.E.R.T."⟩,
   ⟨20, 80, 1, Color.TFT_WHITE, Color.TFT_BLACK, "CoreS3 Edge Device"⟩,
   ⟨20, 120, 1, Color.TFT_WHITE, Color.TFT_BLACK, "Status: Online"⟩]

/-! ## A scripted vendor, for concrete runs -/

/-- What the touch controller shows during one frame: the event count and the
record of each touch point. -/
structure TouchFrame where
  count : Nat
  detail : Nat → TouchDetail

/-- Hardware state of the scripted vendor: the frame currently shown and the
frames still to come. -/
structure Bench where
  now : TouchFrame
  upcoming : List TouchFrame

/-- A scripted vendor: `update` moves on to the next scripted frame (and keeps
the current one when the script is exhausted), the touch queries read the
current frame, every other call leaves the script alone. -/
def Bench.vendor : Vendor Bench Unit where
  config := fun s => ((), s)
  begin := fun _ s => s
  setLogLevel := fun _ _ s => s
  log := fun _ _ _ s => s
  setTextSize := fun _ s => s
  setTextColor := fun _ _ s => s
  fillScreen := fun _ s => s
  setCursor := fun _ _ s => s
  println := fun _ s => s
  update := fun s =>
    match s.upcoming with
    | [] => s
    | f :: fs => ⟨f, fs⟩
  getCount := fun s => (s.now.count, s)
  getDetail := fun index s => (s.now.detail index, s)
  delay := fun _ s => s

/-- A frame with no touch. -/
def Bench.idle : TouchFrame :=
  ⟨0, fun _ => ⟨0, 0, false⟩⟩

/-- A frame showing a new press at (100, 50), with a second point at (7, 9). -/
def Bench.pressed : TouchFrame :=
  ⟨2, fun i => if i = 0 then ⟨100, 50, true⟩ else ⟨7, 9, true⟩⟩

/-- The frame `Bench.pressed` with another second point, at (200, 210). -/
def Bench.pressedElsewhere : TouchFrame :=
  ⟨2, fun i => if i = 0 then ⟨100, 50, true⟩ else ⟨200, 210, false⟩⟩

/-- A frame showing the touch at (100, 50) still held. -/
def Bench.held : TouchFrame :=
  ⟨1, fun _ => ⟨100, 50, false⟩⟩

/-- A script covering one press: pressed, held for two more frames, released. -/
def Bench.onePress : Bench :=
  ⟨Bench.idle, [Bench.pressed, Bench.held, Bench.held, Bench.idle]⟩


/-! ## The calls of `setup` and `loop` -/

theorem setup_world (v : Vendor σ Cfg) (w : World σ Cfg) :
    (setup v w).2.calls = w.calls ++ setupCalls (v.config w.hw).1 := by
  simp [setup, setupCalls, bind, Prog.bind, issue, query, M5.config, M5.begin,
    M5.Log.setLogLevel, M5_LOGI, M5.Display.setTextSize, M5.Display.setTextColor,
    M5.Display.fillScreen, M5.Display.setCursor, M5.Display.println]

theorem loop_world (v : Vendor σ Cfg) (w : World σ Cfg) :
    (loop v w).2.calls = w.calls ++ loopCalls (seenCount v w.hw) (seenDetail v w.hw) := by
  simp only [loop, bind, Prog.bind, issue, query, M5.update, M5.Touch.getCount,
    M5.Touch.getDetail, M5_LOGI, delay, loopCalls, seenCount, seenDetail]
  by_cases h : 0 < (v.getCount (v.update w.hw)).1
  · by_cases hp : (v.getDetail 0 (v.getCount (v.update w.hw)).2).1.wasPressed = true
    · simp [h, hp, pure, Prog.bind, issue, query]
    · simp [h, hp, pure, Prog.bind, issue, query]
  · simp [h, pure, Prog.bind, issue]

theorem loop_hw (v : Vendor σ Cfg) (w : World σ Cfg) :
    (loop v w).2.hw = hwAfter (loop v) w.hw := by
  simp only [loop, bind, Prog.bind, issue, query, M5.update, M5.Touch.getCount,
    M5.Touch.getDetail, M5_LOGI, delay, hwAfter]
  by_cases h : 0 < (v.getCount (v.update w.hw)).1
  · by_cases hp : (v.getDetail 0 (v.getCount (v.update w.hw)).2).1.wasPressed = true
    · simp [h, hp, pure, Prog.bind, issue, query]
    · simp [h, hp, pure, Prog.bind, issue, query]
  · simp [h, pure, Prog.bind, issue]

theorem setup_hw (v : Vendor σ Cfg) (w : World σ Cfg) :
    (setup v w).2.hw = hwAfter (setup v) w.hw := by
  simp [setup, hwAfter, bind, Prog.bind, issue, query, M5.config, M5.begin,
    M5.Log.setLogLevel, M5_LOGI, M5.Display.setTextSize, M5.Display.setTextColor,
    M5.Display.fillScreen, M5.Display.setCursor, M5.Display.println]

theorem callsOf_setup (v : Vendor σ Cfg) (s : σ) :
    callsOf (setup v) s = setupCalls (v.config s).1 := by
  simp [callsOf, setup_world]

theorem callsOf_loop (v : Vendor σ Cfg) (s : σ) :
    callsOf (loop v) s = loopCalls (seenCount v s) (seenDetail v s) := by
  simp [callsOf, loop_world]

theorem loopN_world (v : Vendor σ Cfg) (n : Nat) (w : World σ Cfg) :
    (loopN v n w).2.calls = w.calls ++ callsOf (loopN v n) w.hw ∧
      (loopN v n w).2.hw = hwAfter (loopN v n) w.hw := by
  induction n generalizing w with
  | zero => simp [loopN, callsOf, hwAfter, pure]
  | succ n ih =>
    have hcalls : (loop v w).2.calls = w.calls ++ callsOf (loop v) w.hw := by
      rw [loop_world, callsOf_loop]
    have hstep : callsOf (loopN v (n + 1)) w.hw =
        callsOf (loop v) w.hw ++ callsOf (loopN v n) (hwAfter (loop v) w.hw) := by
      have h := (ih (loop v ⟨w.hw, []⟩).2).1
      simp only [loopN, bind, Prog.bind, callsOf, hwAfter] at *
      rw [h]
    have hstate : hwAfter (loopN v (n + 1)) w.hw =
        hwAfter (loopN v n) (hwAfter (loop v) w.hw) := by
      have h := (ih (loop v ⟨w.hw, []⟩).2).2
      simp only [loopN, bind, Prog.bind, hwAfter] at *
      rw [h]
    have h1 := ih (loop v w).2
    rw [loop_hw, hcalls] at h1
    rw [hstep, hstate, ← List.append_assoc]
    exact h1

theorem callsOf_loopN_succ (v : Vendor σ Cfg) (n : Nat) (s : σ) :
    callsOf (loopN v (n + 1)) s =
      callsOf (loop v) s ++ callsOf (loopN v n) (hwAfter (loop v) s) := by
  have h := (loopN_world v n (loop v ⟨s, []⟩).2).1
  simp only [loopN, bind, Prog.bind, callsOf, hwAfter] at *
  rw [h]

theorem callsOf_firmware (v : Vendor σ Cfg) (n : Nat) (s : σ) :
    callsOf (firmware v n) s =
      callsOf (setup v) s ++ callsOf (loopN v n) (hwAfter (setup v) s) := by
  have h := (loopN_world v n (setup v ⟨s, []⟩).2).1
  simp only [firmware, bind, Prog.bind, callsOf, hwAfter] at *
  rw [h]


/-! ## Log lines -/

theorem logLines_append (xs ys : List (Call Cfg)) :
    logLines (xs ++ ys) = logLines xs ++ logLines ys := by
  induction xs with
  | nil => simp [logLines]
  | cons c cs ih => cases c <;> simp [logLines, ih]

theorem logLines_loopCalls (n : Nat) (touch : TouchDetail) :
    logLines (loopCalls n touch : List (Call Cfg)) =
      if 0 < n ∧ touch.wasPressed = true then [touchLine touch] else [] := by
  by_cases h : 0 < n <;> by_cases hp : touch.wasPressed = true <;>
    simp [loopCalls, logLines, touchLine, h, hp]

theorem logLines_loopN (v : Vendor σ Cfg) (n : Nat) (s : σ) :
    logLines (callsOf (loopN v n) s) = (iterationLogs v n s).flatten := by
  induction n generalizing s with
  | zero => simp [loopN, callsOf, pure, iterationLogs, logLines]
  | succ n ih => simp [callsOf_loopN_succ, logLines_append, iterationLogs, ih]

theorem iterationLogs_quiet (v : Vendor σ Cfg) (n : Nat) (s : σ)
    (h : ∀ k, k < n → ¬ reportsPress v (hwAt v k s)) :
    iterationLogs v n s = List.replicate n [] := by
  induction n generalizing s with
  | zero => simp [iterationLogs]
  | succ n ih =>
    have h0 : ¬ (0 < seenCount v s ∧ (seenDetail v s).wasPressed = true) := by
      simpa [hwAt, reportsPress] using h 0 (Nat.succ_pos n)
    have hrest := ih (hwAfter (loop v) s) (fun k hk => by
      simpa [hwAt] using h (k + 1) (Nat.succ_lt_succ hk))
    simp only [iterationLogs, callsOf_loop, logLines_loopCalls, if_neg h0, hrest,
      List.replicate_succ]

/-! ## The display simulator -/

theorem Display.run_append (d : Display) (xs ys : List (Call Cfg)) :
    Display.run d (xs ++ ys) = Display.run (Display.run d xs) ys := by
  simp [Display.run, List.foldl_append]

theorem Display.run_of_no_display (d : Display) (cs : List (Call Cfg))
    (h : ∀ c ∈ cs, c.isDisplay = false) : Display.run d cs = d := by
  induction cs generalizing d with
  | nil => rfl
  | cons c cs ih =>
    have hc : Display.apply d c = d := by
      have := h c (List.mem_cons_self c cs)
      cases c <;> simp_all [Display.apply, Call.isDisplay]
    have := ih d (fun x hx => h x (List.mem_cons_of_mem c hx))
    simpa [Display.run, hc] using this

theorem loopCalls_no_display (n : Nat) (touch : TouchDetail) :
    ∀ c ∈ (loopCalls n touch : List (Call Cfg)), c.isDisplay = false := by
  intro c hc
  by_cases h : 0 < n <;> by_cases hp : touch.wasPressed = true <;>
    simp [loopCalls, h, hp] at hc <;>
    rcases hc with rfl | rfl | rfl | rfl | rfl <;> rfl

theorem loopN_no_display (v : Vendor σ Cfg) (n : Nat) (s : σ) :
    ∀ c ∈ callsOf (loopN v n) s, c.isDisplay = false := by
  induction n generalizing s with
  | zero => simp [loopN, callsOf, pure]
  | succ n ih =>
    intro c hc
    rw [callsOf_loopN_succ, List.mem_append] at hc
    rcases hc with hc | hc
    · rw [callsOf_loop] at hc
      exact loopCalls_no_display _ _ c hc
    · exact ih _ c hc

theorem Display.run_setupCalls (d : Display) (cfg : Cfg) :
    (Display.run d (setupCalls cfg)).items = greeting := by
  simp [Display.run, setupCalls, Display.apply, greeting]


/-! ## The claims -/

/-- C1: in every poll iteration, whatever the vendor and the hardware state,
`M5.update` is the first vendor call, it is issued exactly once, and every
touch query (`getCount`, `getDetail`) of the iteration has it before it. -/
theorem loop_update_first_and_once (v : Vendor σ Cfg) (s : σ) :
    (callsOf (loop v) s).head? = some Call.update ∧
      (callsOf (loop v) s).countP Call.isUpdate = 1 ∧
      ∀ pre c post, callsOf (loop v) s = pre ++ c :: post →
        c.isTouchQuery = true → Call.update ∈ pre := by
  rw [callsOf_loop]
  refine ⟨by simp [loopCalls], ?_, ?_⟩
  · by_cases h : 0 < seenCount v s <;>
      by_cases hp : (seenDetail v s).wasPressed = true <;>
      simp [loopCalls, h, hp, List.countP_cons, Call.isUpdate]
  · intro pre c post hsplit hq
    cases pre with
    | nil =>
      simp [loopCalls] at hsplit
      rw [← hsplit.1] at hq
      simp [Call.isTouchQuery] at hq
    | cons p ps =>
      simp [loopCalls] at hsplit
      simp [← hsplit.1]

/-- C3: one poll iteration logs exactly the line "Touch at (%d, %d)" with the
x and then the y coordinate of touch point 0 when the count seen after the
refresh is positive and the transition flag of touch point 0 is set, and logs
nothing in every other case; so it logs at most one line. -/
theorem loop_logs_iff_press (v : Vendor σ Cfg) (s : σ) :
    logLines (callsOf (loop v) s) =
        (if 0 < seenCount v s ∧ (seenDetail v s).wasPressed = true then
          [("Touch at (%d, %d)", [(seenDetail v s).x, (seenDetail v s).y])]
         else []) ∧
      (logLines (callsOf (loop v) s)).length ≤ 1 := by
  rw [callsOf_loop, logLines_loopCalls]
  constructor
  · rfl
  · split <;> simp

/-- C7: every poll iteration ends with the call `delay(10)`, and that is the
only delay call of the iteration, whatever the touch queries returned. -/
theorem loop_delay_last_and_once (v : Vendor σ Cfg) (s : σ) :
    (callsOf (loop v) s).getLast? = some (Call.delay 10) ∧
      (callsOf (loop v) s).countP Call.isDelay = 1 := by
  rw [callsOf_loop]
  by_cases h : 0 < seenCount v s <;>
    by_cases hp : (seenDetail v s).wasPressed = true <;>
    simp [loopCalls, h, hp, List.countP_cons, Call.isDelay]

/-- C10: whatever the vendor calls return and do to the hardware, `setup`
issues one fixed sequence of vendor calls: config, begin with the value config
returned, setLogLevel for the serial sink at INFO, the "System Initialized"
log, the display draw calls, and the "Display ready" log. -/
theorem setup_calls_fixed (v : Vendor σ Cfg) (s : σ) :
    callsOf (setup v) s =
      [Call.config, Call.begin (v.config s).1,
       Call.setLogLevel LogTarget.log_target_serial LogLevel.ESP_LOG_INFO,
       Call.M5_LOGI "Agent R.O.B.E.R.T. CoreS3 — System Initialized" [],
       Call.setTextSize 2,
       Call.setTextColor Color.TFT_WHITE Color.TFT_BLACK,
       Call.fillScreen Color.TFT_BLACK,
       Call.setCursor 20 40,
       Call.println "Agent R.O.B.E.R.T.",
       Call.setCursor 20 80,
       Call.setTextSize 1,
       Call.println "CoreS3 Edge Device",
       Call.setCursor 20 120,
       Call.println "Status: Online",
       Call.M5_LOGI "Display ready" []] := by
  rw [callsOf_setup]
  rfl

/-- C6: in `setup`, `M5.begin` is called exactly once, with exactly the value
`M5.config()` returned, as the second call right after `M5.config()`; every
logging call and every display call of `setup` has the begin call before it. -/
theorem setup_begin_once_before_use (v : Vendor σ Cfg) (s : σ) :
    (callsOf (setup v) s).countP Call.isBegin = 1 ∧
      (∃ rest, callsOf (setup v) s = Call.config :: Call.begin (v.config s).1 :: rest) ∧
      ∀ pre c post, callsOf (setup v) s = pre ++ c :: post →
        (c.isLogging = true ∨ c.isDisplay = true) →
        Call.begin (v.config s).1 ∈ pre := by
  rw [callsOf_setup]
  refine ⟨by simp [setupCalls, List.countP_cons, Call.isBegin], ⟨_, rfl⟩, ?_⟩
  intro pre c post hsplit hq
  cases pre with
  | nil =>
    simp [setupCalls] at hsplit
    rw [← hsplit.1] at hq
    simp [Call.isLogging, Call.isDisplay] at hq
  | cons p ps =>
    cases ps with
    | nil =>
      simp [setupCalls] at hsplit
      rw [← hsplit.2.1] at hq
      simp [Call.isLogging, Call.isDisplay] at hq
    | cons q qs =>
      simp [setupCalls] at hsplit
      simp [← hsplit.2.1]

/-- C4: after `setup`, from any initial display contents, the simulated
display holds exactly the three greeting lines at (20, 40), (20, 80) and
(20, 120); `setup` clears the screen exactly once, and no line is printed
before that clear while all three are printed after it. -/
theorem setup_display_greeting (v : Vendor σ Cfg) (s : σ) (d : Display) :
    (Display.run d (callsOf (setup v) s)).items =
        [⟨20, 40, 2, Color.TFT_WHITE, Color.TFT_BLACK, "Agent R.O.B.E.R.T."⟩,
         ⟨20, 80, 1, Color.TFT_WHITE, Color.TFT_BLACK, "CoreS3 Edge Device"⟩,
         ⟨20, 120, 1, Color.TFT_WHITE, Color.TFT_BLACK, "Status: Online"⟩] ∧
      (callsOf (setup v) s).countP Call.isFillScreen = 1 ∧
      ∃ pre post, callsOf (setup v) s = pre ++ Call.fillScreen Color.TFT_BLACK :: post ∧
        pre.countP Call.isPrintln = 0 ∧
        post.filter Call.isPrintln =
          [Call.println "Agent R.O.B.E.R.T.", Call.println "CoreS3 Edge Device",
           Call.println "Status: Online"] := by
  rw [callsOf_setup]
  refine ⟨Display.run_setupCalls d _, by simp [setupCalls, List.countP_cons, Call.isFillScreen],
    [Call.config, Call.begin (v.config s).1,
      Call.setLogLevel LogTarget.log_target_serial LogLevel.ESP_LOG_INFO,
      Call.M5_LOGI "Agent R.O.B.E.R.T. CoreS3 — System Initialized" [],
      Call.setTextSize 2, Call.setTextColor Color.TFT_WHITE Color.TFT_BLACK], _, rfl, ?_, ?_⟩
  · simp [List.countP_cons, Call.isPrintln]
  · simp [List.filter_cons, Call.isPrintln]

/-- C9: a poll iteration issues no display call, so it leaves the simulated
display (contents and cursor) as it was; after `setup` followed by any number
of poll iterations the display is the one `setup` left, with the three
greeting lines on it. -/
theorem loop_leaves_display (v : Vendor σ Cfg) (s : σ) :
    (∀ c ∈ callsOf (loop v) s, c.isDisplay = false) ∧
      (∀ d : Display, Display.run d (callsOf (loop v) s) = d) ∧
      (∀ (n : Nat) (d : Display),
        Display.run d (callsOf (firmware v n) s) = Display.run d (callsOf (setup v) s)) ∧
      ∀ (n : Nat) (d : Display),
        (Display.run d (callsOf (firmware v n) s)).items = greeting := by
  have hloop : ∀ c ∈ callsOf (loop v) s, c.isDisplay = false := by
    rw [callsOf_loop]
    exact loopCalls_no_display _ _
  have hfw : ∀ (n : Nat) (d : Display),
      Display.run d (callsOf (firmware v n) s) = Display.run d (callsOf (setup v) s) := by
    intro n d
    rw [callsOf_firmware, Display.run_append]
    exact Display.run_of_no_display _ _ (loopN_no_display v n _)
  refine ⟨hloop, fun d => Display.run_of_no_display d _ hloop, hfw, ?_⟩
  intro n d
  rw [hfw, callsOf_setup]
  exact Display.run_setupCalls d _


/-- C2: a run of poll iterations covering one press of touch point 0 (the
first iteration is shown the new press, iterations 1 to n - 1 are shown the
point still held, iteration n is shown the release; the press and the release
cannot fall on one iteration, so n is at least 1) logs exactly one "Touch at"
line: the first iteration logs it, with the coordinates of the press, and each
of the n later iterations logs nothing. -/
theorem one_log_line_per_press (v : Vendor σ Cfg) (s : σ) (n : Nat)
    (hpress : reportsPress v s)
    (hheld : ∀ k, 1 ≤ k → k < n → reportsHeld v (hwAt v k s))
    (hreleased : reportsReleased v (hwAt v n s)) :
    iterationLogs v (n + 1) s =
        [("Touch at (%d, %d)", [(seenDetail v s).x, (seenDetail v s).y])] ::
          List.replicate n [] ∧
      logLines (callsOf (loopN v (n + 1)) s) =
        [("Touch at (%d, %d)", [(seenDetail v s).x, (seenDetail v s).y])] := by
  have hquiet : iterationLogs v n (hwAfter (loop v) s) = List.replicate n [] := by
    apply iterationLogs_quiet
    intro k hk hp
    have hp1 : reportsPress v (hwAt v (k + 1) s) := by simpa [hwAt] using hp
    by_cases hlast : k + 1 < n
    · have hh := hheld (k + 1) (Nat.succ_pos k) hlast
      simp [reportsPress, reportsHeld] at hp1 hh
      simp [hh.2] at hp1
    · have hk1 : k + 1 = n := by omega
      rw [hk1] at hp1
      simp [reportsPress, reportsReleased] at hp1 hreleased
      rcases hreleased with h0 | hf
      · omega
      · simp [hf] at hp1
  have hfirst : iterationLogs v (n + 1) s =
      [("Touch at (%d, %d)", [(seenDetail v s).x, (seenDetail v s).y])] ::
        List.replicate n [] := by
    have hp : 0 < seenCount v s ∧ (seenDetail v s).wasPressed = true := hpress
    simp only [iterationLogs, callsOf_loop, logLines_loopCalls, if_pos hp, hquiet, touchLine]
  refine ⟨hfirst, ?_⟩
  rw [logLines_loopN, hfirst]
  simp

/-- C5: two poll iterations that are shown the same event count and the same
record for touch point 0 issue the same vendor calls and log the same lines,
whatever the records of the other touch points are; `getDetail` is only ever
called with index 0, and only when the count is positive. -/
theorem loop_reads_only_point_zero {σ₁ σ₂ : Type} (v₁ : Vendor σ₁ Cfg) (v₂ : Vendor σ₂ Cfg)
    (s₁ : σ₁) (s₂ : σ₂)
    (hcount : seenCount v₁ s₁ = seenCount v₂ s₂)
    (hdetail : seenDetail v₁ s₁ = seenDetail v₂ s₂) :
    callsOf (loop v₁) s₁ = callsOf (loop v₂) s₂ ∧
      logLines (callsOf (loop v₁) s₁) = logLines (callsOf (loop v₂) s₂) ∧
      ∀ i, Call.getDetail i ∈ callsOf (loop v₁) s₁ → i = 0 ∧ 0 < seenCount v₁ s₁ := by
  have hcalls : callsOf (loop v₁) s₁ = callsOf (loop v₂) s₂ := by
    rw [callsOf_loop, callsOf_loop, hcount, hdetail]
  refine ⟨hcalls, by rw [hcalls], ?_⟩
  intro i hi
  rw [callsOf_loop] at hi
  by_cases h : 0 < seenCount v₁ s₁ <;>
    by_cases hp : (seenDetail v₁ s₁).wasPressed = true <;>
    simp [loopCalls, h, hp] at hi
  · exact ⟨hi, h⟩
  · exact ⟨hi, h⟩

/-- Witness for C2 on the scripted vendor: pressed, held, held, released. -/
theorem one_log_line_per_press_witness :
    reportsPress Bench.vendor Bench.onePress ∧
      reportsHeld Bench.vendor (hwAt Bench.vendor 1 Bench.onePress) ∧
      reportsHeld Bench.vendor (hwAt Bench.vendor 2 Bench.onePress) ∧
      reportsReleased Bench.vendor (hwAt Bench.vendor 3 Bench.onePress) ∧
      iterationLogs Bench.vendor 4 Bench.onePress =
        [[("Touch at (%d, %d)", [100, 50])], [], [], []] :=
  ⟨by decide, by decide, by decide, by decide,
    (one_log_line_per_press Bench.vendor Bench.onePress 3 (by decide)
      (fun k h1 h3 => by interval_cases k <;> decide) (by decide)).1⟩

/-- Witness for C5 on the scripted vendor: two frames that agree on the count
and on touch point 0 and differ on touch point 1. -/
theorem loop_reads_only_point_zero_witness :
    Bench.pressed.detail 1 ≠ Bench.pressedElsewhere.detail 1 ∧
      callsOf (loop Bench.vendor) ⟨Bench.idle, [Bench.pressed]⟩ =
        callsOf (loop Bench.vendor) ⟨Bench.idle, [Bench.pressedElsewhere]⟩ :=
  ⟨by decide,
    (loop_reads_only_point_zero Bench.vendor Bench.vendor ⟨Bench.idle, [Bench.pressed]⟩
      ⟨Bench.idle, [Bench.pressedElsewhere]⟩ (by decide) (by decide)).1⟩

end AgentCoreS3
